import Mathlib

/-!
Shallow embedding of the tracking core of the We-Track repository.

Sources embedded:
  * src/frontend/src/services/trackingService.ts — the TrackingService class
    (real-time location acceptance, manual location updates, history buffer,
    subscriptions, movement and speed inference).
  * the GPS service (gpsService.ts) — formatDistance.
  * the mobile tracking service (mobileTracking backend service) —
    validateTrackingRequest, identifyNetwork, trackMobileNumber and the three
    carrier adapters.

Modelling conventions:
  * JS Map objects become functions `String → Option _`; `Map.set` is pointwise
    update, `Map.delete` maps the key to `none`.
  * `gpsService.calculateDistance` is a haversine over IEEE floats; a faithful
    bit-level embedding of transcendental float arithmetic is not possible, so
    every operation of TrackingService that consults it is parameterised by a
    distance function `dist : Coordinates → Coordinates → ℚ`. All structural
    theorems below hold for every such function, which subsumes the actual
    haversine.
  * Randomness (`Math.random`-derived coordinates, ids built from `Date.now()`,
    confidences) and clock reads are externalised as explicit arguments.
  * Callbacks are identified by a numeric token; invoking a callback is modelled
    by emitting a `(token, update)` pair into a delivery list.
  * Database effects of the mobile tracking service (prisma create/update) are
    modelled by returning the id of the created record and the list of outcome
    writes applied to it.
-/

/-- A latitude/longitude pair, as passed to gpsService.calculateDistance. -/
structure Coordinates where
  latitude : ℚ
  longitude : ℚ
deriving DecidableEq, Repr

/-- The Location record of src/frontend/src/types (the fields the tracking
core reads). Timestamps are in milliseconds, as Date.getTime returns. -/
structure Location where
  id : String
  latitude : ℚ
  longitude : ℚ
  timestampMs : ℤ
  source : String
deriving DecidableEq, Repr

/-- Discriminates devices from vehicles, as the string field itemType does. -/
inductive ItemType where
  | device
  | vehicle
deriving DecidableEq, Repr

/-- The status field of a Device or Vehicle. -/
inductive ItemStatus where
  | lost
  | found
  | returned
deriving DecidableEq, Repr

/-- The fields of Device/Vehicle that TrackingService reads or writes. -/
structure Item where
  id : String
  status : ItemStatus
  isActive : Bool
  currentLocation : Option Location
  lastKnownLocation : Option Location
deriving DecidableEq, Repr

/-- The TrackingUpdate record: the canonical note that a position was
committed for an item. -/
structure TrackingUpdate where
  id : String
  itemId : String
  itemType : ItemType
  location : Location
  timestampMs : ℤ
  source : String
  confidence : ℚ
deriving DecidableEq, Repr

/-- The mutable state of the TrackingService singleton: the devices and
vehicles maps, the per-item tracking history, and the per-item location
update callback registry (callbacks identified by numeric tokens). -/
structure ServiceState where
  devices : String → Option Item
  vehicles : String → Option Item
  trackingUpdates : String → List TrackingUpdate
  locationUpdateCallbacks : String → Option ℕ

/-- A delivered notification: which callback token was invoked, with which
update. -/
abbrev Delivery := ℕ × TrackingUpdate

/-- The history commit of updateItemLocationRealTime: push the update, then
keep only the last 100 entries (updates.splice(0, updates.length - 100) when
updates.length > 100). -/
def pushTrimmed (old : List TrackingUpdate) (u : TrackingUpdate) :
    List TrackingUpdate :=
  let pushed := old ++ [u]
  if 100 < pushed.length then pushed.drop (pushed.length - 100) else pushed

/-- TrackingService.updateItemLocationRealTime. The randomly generated
candidate location, the fresh update id, the clock reading and the random
confidence are explicit arguments. Returns the new state and the list of
callback deliveries performed. -/
def updateItemLocationRealTime (dist : Coordinates → Coordinates → ℚ)
    (s : ServiceState) (itemId : String) (newLoc : Location)
    (updId : String) (nowMs : ℤ) (conf : ℚ) :
    ServiceState × List Delivery :=
  let fromDevices := s.devices itemId
  match fromDevices.orElse fun _ => s.vehicles itemId with
  | none => (s, [])
  | some item =>
    if item.isActive ∧ item.status = ItemStatus.lost then
      match item.currentLocation.orElse fun _ => item.lastKnownLocation with
      | none => (s, [])
      | some lastLocation =>
        if 10 ≤ dist ⟨lastLocation.latitude, lastLocation.longitude⟩
            ⟨newLoc.latitude, newLoc.longitude⟩ then
          let update : TrackingUpdate :=
            { id := updId
              itemId := item.id
              itemType := if fromDevices.isSome then ItemType.device else ItemType.vehicle
              location := newLoc
              timestampMs := nowMs
              source := "Real-time GPS"
              confidence := conf }
          let item' := { item with currentLocation := some newLoc }
          let trimmed := pushTrimmed (s.trackingUpdates item.id) update
          let s' : ServiceState :=
            if fromDevices.isSome then
              { s with
                devices := fun k => if k = itemId then some item' else s.devices k
                trackingUpdates := fun k => if k = item.id then trimmed else s.trackingUpdates k }
            else
              { s with
                vehicles := fun k => if k = itemId then some item' else s.vehicles k
                trackingUpdates := fun k => if k = item.id then trimmed else s.trackingUpdates k }
          let deliveries : List Delivery :=
            match s.locationUpdateCallbacks item.id with
            | some cb => [(cb, update)]
            | none => []
          (s', deliveries)
        else (s, [])
    else (s, [])

/-- The item lookup of updateItemLocation: the devices map for itemType
device, the vehicles map for itemType vehicle. -/
def manualLookup (s : ServiceState) (itemId : String) :
    ItemType → Option Item
  | ItemType.device => s.devices itemId
  | ItemType.vehicle => s.vehicles itemId

/-- TrackingService.updateItemLocation — the manual update path. Returns the
new state, the deliveries performed, and the update returned to the caller
(none when the item is unknown, mirroring the null return). -/
def updateItemLocation (s : ServiceState) (itemId : String) (location : Location)
    (itemType : ItemType) (updId : String) (nowMs : ℤ) :
    ServiceState × List Delivery × Option TrackingUpdate :=
  match manualLookup s itemId itemType with
  | none => (s, [], none)
  | some item =>
    let item' := { item with currentLocation := some location }
    let update : TrackingUpdate :=
      { id := updId
        itemId := itemId
        itemType := itemType
        location := location
        timestampMs := nowMs
        source := "Manual Update"
        confidence := 1 }
    let pushed := s.trackingUpdates itemId ++ [update]
    let s' : ServiceState :=
      match itemType with
      | ItemType.device =>
        { s with
          devices := fun k => if k = itemId then some item' else s.devices k
          trackingUpdates := fun k => if k = itemId then pushed else s.trackingUpdates k }
      | ItemType.vehicle =>
        { s with
          vehicles := fun k => if k = itemId then some item' else s.vehicles k
          trackingUpdates := fun k => if k = itemId then pushed else s.trackingUpdates k }
    let deliveries : List Delivery :=
      match s.locationUpdateCallbacks itemId with
      | some cb => [(cb, update)]
      | none => []
    (s', deliveries, some update)

/-- TrackingService.subscribeToLocationUpdates: Map.set on the callback
registry. -/
def subscribeToLocationUpdates (s : ServiceState) (itemId : String) (cb : ℕ) :
    ServiceState :=
  { s with
    locationUpdateCallbacks := fun k =>
      if k = itemId then some cb else s.locationUpdateCallbacks k }

/-- TrackingService.unsubscribeFromLocationUpdates: Map.delete on the callback
registry. -/
def unsubscribeFromLocationUpdates (s : ServiceState) (itemId : String) :
    ServiceState :=
  { s with
    locationUpdateCallbacks := fun k =>
      if k = itemId then none else s.locationUpdateCallbacks k }

/-- The for-loop of TrackingService.isItemMoving: sum of consecutive pairwise
distances along a list of updates. -/
def pairwiseSum (dist : Coordinates → Coordinates → ℚ) :
    List TrackingUpdate → ℚ
  | a :: b :: rest =>
    dist ⟨a.location.latitude, a.location.longitude⟩
      ⟨b.location.latitude, b.location.longitude⟩ + pairwiseSum dist (b :: rest)
  | _ => 0

/-- TrackingService.isItemMoving. slice(-5) is drop (length - 5). -/
def isItemMoving (dist : Coordinates → Coordinates → ℚ) (s : ServiceState)
    (itemId : String) : Bool :=
  let updates := s.trackingUpdates itemId
  if updates.length < 2 then false
  else
    let recent := updates.drop (updates.length - 5)
    if 50 < pairwiseSum dist recent then true else false

/-- TrackingService.getItemSpeed. slice(-2) is drop (length - 2); the guard
makes that a two-element list, and the wildcard branch is unreachable. -/
def getItemSpeed (dist : Coordinates → Coordinates → ℚ) (s : ServiceState)
    (itemId : String) : Option ℚ :=
  let updates := s.trackingUpdates itemId
  if updates.length < 2 then none
  else
    match updates.drop (updates.length - 2) with
    | [a, b] =>
      let d := dist ⟨a.location.latitude, a.location.longitude⟩
        ⟨b.location.latitude, b.location.longitude⟩
      let timeDiff : ℚ := ((b.timestampMs : ℚ) - (a.timestampMs : ℚ)) / 1000
      some (if 0 < timeDiff then d / timeDiff else 0)
    | _ => none

/-- JS Math.round: floor (x + 1/2), half rounds toward positive infinity. -/
def jsRound (q : ℚ) : ℤ := ⌊q + 1 / 2⌋

/-- JS Number.toFixed(1): the integer n with n / 10 nearest the value, ties
taking the larger n, rendered with one decimal digit. -/
def toFixed1 (q : ℚ) : String :=
  let n : ℤ := ⌊q * 10 + 1 / 2⌋
  toString (n / 10) ++ "." ++ toString (n % 10)

/-- GPSService.formatDistance. -/
def formatDistance (meters : ℚ) : String :=
  if meters < 1000 then toString (jsRound meters) ++ "m"
  else if meters < 10000 then toFixed1 (meters / 1000) ++ "km"
  else toString (jsRound (meters / 1000)) ++ "km"

/-- The fields of the prisma user record that validateTrackingRequest selects. -/
structure Officer where
  role : String
  isActive : Bool
deriving DecidableEq, Repr

/-- The MobileTrackingRequest interface of the mobile tracking service.
Optional TypeScript fields are Option; an absent (undefined) field is none,
and a present empty string is some "". The requestType is the raw enum
string, so the default branch of the switch is representable. -/
structure MobileTrackingRequest where
  mobileNumber : String
  requestType : String
  officerId : String
  courtOrderNumber : Option String
  emergencyCode : Option String
  consentToken : Option String
deriving DecidableEq, Repr

/-- MobileTrackingService.validateTrackingRequest. The prisma user lookup is
the function `users`. Field checks are the literal `!== undefined` tests of
the source: Option.isSome, regardless of the string content. -/
def validateTrackingRequest (users : String → Option Officer)
    (request : MobileTrackingRequest) : Bool :=
  match users request.officerId with
  | none => false
  | some officer =>
    if ¬ officer.isActive then false
    else if ¬ (["POLICE", "ADMIN"].contains officer.role) then false
    else if request.requestType = "EMERGENCY" then request.emergencyCode.isSome
    else if request.requestType = "COURT_ORDER" then request.courtOrderNumber.isSome
    else if request.requestType = "CONSENT" then request.consentToken.isSome
    else if request.requestType = "LOST_DEVICE" then true
    else false

/-- Removes the first occurrence of pat from a character list, scanning from
the front; the list is unchanged when pat does not occur. -/
def removeFirstAux (pat : List Char) : List Char → List Char
  | [] => []
  | c :: rest =>
    if (c :: rest).take pat.length = pat then (c :: rest).drop pat.length
    else c :: removeFirstAux pat rest

/-- JS String.replace with a string pattern replaces the first occurrence
only; this mirrors that for an empty replacement string. -/
def replaceFirst (s pat : String) : String := ⟨removeFirstAux pat.data s.data⟩

/-- The Safaricom prefix table of MobileTrackingService.identifyNetwork. -/
def safaricomPrefixes : List String :=
  ["701", "702", "703", "704", "705", "706", "707", "708", "709",
   "710", "711", "712", "713", "714", "715", "716", "717", "718", "719",
   "720", "721", "722", "723", "724", "725", "726", "727", "728", "729"]

/-- The Airtel prefix table of MobileTrackingService.identifyNetwork. -/
def airtelPrefixes : List String :=
  ["730", "731", "732", "733", "734", "735", "736", "737", "738", "739",
   "750", "751", "752", "753", "754", "755", "756", "757", "758", "759"]

/-- The Telkom prefix table of MobileTrackingService.identifyNetwork. -/
def telkomPrefixes : List String :=
  ["770", "771", "772", "773", "774", "775", "776", "777", "778", "779"]

/-- MobileTrackingService.identifyNetwork: strip the country code, take the
first three digits, look them up in the three carrier tables. -/
def identifyNetwork (mobileNumber : String) : String :=
  let number := replaceFirst mobileNumber "+254"
  let digits3 := number.take 3
  if safaricomPrefixes.contains digits3 then "SAFARICOM"
  else if airtelPrefixes.contains digits3 then "AIRTEL"
  else if telkomPrefixes.contains digits3 then "TELKOM"
  else "UNKNOWN"

/-- Whether each carrier has an API key configured (the environment lookup of
the NETWORKS table). -/
structure NetworkConfig where
  safaricomConfigured : Bool
  airtelConfigured : Bool
  telkomConfigured : Bool
deriving DecidableEq, Repr

/-- The MobileTrackingResult interface. The mock location content is random;
only its presence and its network label are modelled. -/
structure MobileTrackingResult where
  success : Bool
  hasLocation : Bool
  locationNetwork : Option String
  error : Option String
  requestId : String
deriving DecidableEq, Repr

/-- One prisma.mobileTrackingRequest.update writing the outcome of a request
record (success flag, network, error, whether a location was saved). -/
structure OutcomeWrite where
  success : Bool
  network : String
  error : Option String
  hasLocation : Bool
deriving DecidableEq, Repr

/-- MobileTrackingService.trackWithSafaricom: succeeds with a mock location
when the API key is configured, otherwise its internal catch returns a
failure result. -/
def trackWithSafaricom (cfg : NetworkConfig) (requestId : String) :
    MobileTrackingResult :=
  if ¬ cfg.safaricomConfigured then
    { success := false, hasLocation := false, locationNetwork := none,
      error := some "Safaricom API not configured", requestId := requestId }
  else
    { success := true, hasLocation := true, locationNetwork := some "SAFARICOM",
      error := none, requestId := requestId }

/-- MobileTrackingService.trackWithAirtel. -/
def trackWithAirtel (cfg : NetworkConfig) (requestId : String) :
    MobileTrackingResult :=
  if ¬ cfg.airtelConfigured then
    { success := false, hasLocation := false, locationNetwork := none,
      error := some "Airtel API not configured", requestId := requestId }
  else
    { success := true, hasLocation := true, locationNetwork := some "AIRTEL",
      error := none, requestId := requestId }

/-- MobileTrackingService.trackWithTelkom. -/
def trackWithTelkom (cfg : NetworkConfig) (requestId : String) :
    MobileTrackingResult :=
  if ¬ cfg.telkomConfigured then
    { success := false, hasLocation := false, locationNetwork := none,
      error := some "Telkom API not configured", requestId := requestId }
  else
    { success := true, hasLocation := true, locationNetwork := some "TELKOM",
      error := none, requestId := requestId }

/-- MobileTrackingService.trackMobileNumber. The fresh prisma record id is the
argument newId. Returns the result handed to the caller, the id of the
created request record (none when validation failed before the create), and
the list of outcome writes applied to that record. The throws of the source
land in its catch, which returns a failure result with an empty requestId. -/
def trackMobileNumber (users : String → Option Officer) (cfg : NetworkConfig)
    (request : MobileTrackingRequest) (newId : String) :
    MobileTrackingResult × Option String × List OutcomeWrite :=
  if ¬ validateTrackingRequest users request then
    ({ success := false, hasLocation := false, locationNetwork := none,
       error := some "Unauthorized tracking request", requestId := "" },
     none, [])
  else
    let network := identifyNetwork request.mobileNumber
    if network = "SAFARICOM" then
      let tr := trackWithSafaricom cfg newId
      ({ tr with requestId := newId }, some newId,
       [{ success := tr.success, network := network, error := tr.error,
          hasLocation := tr.hasLocation }])
    else if network = "AIRTEL" then
      let tr := trackWithAirtel cfg newId
      ({ tr with requestId := newId }, some newId,
       [{ success := tr.success, network := network, error := tr.error,
          hasLocation := tr.hasLocation }])
    else if network = "TELKOM" then
      let tr := trackWithTelkom cfg newId
      ({ tr with requestId := newId }, some newId,
       [{ success := tr.success, network := network, error := tr.error,
          hasLocation := tr.hasLocation }])
    else
      ({ success := false, hasLocation := false, locationNetwork := none,
         error := some "Unknown network provider", requestId := "" },
       some newId, [])

/-!
Concrete fixtures used by witnesses and counterexamples.
-/

/-- A distance function that reports every pair of positions as coincident. -/
def distZero : Coordinates → Coordinates → ℚ := fun _ _ => 0

/-- A distance function reporting 25 m between any two positions. -/
def dist25 : Coordinates → Coordinates → ℚ := fun _ _ => 25

/-- A distance function reporting 100 m between any two positions. -/
def dist100 : Coordinates → Coordinates → ℚ := fun _ _ => 100

/-- A concrete location in Nairobi. -/
def locA : Location :=
  { id := "locA", latitude := -1, longitude := 36, timestampMs := 0, source := "gps" }

/-- A second concrete location. -/
def locB : Location :=
  { id := "locB", latitude := -2, longitude := 37, timestampMs := 5, source := "gps" }

/-- A lost, active device currently at locA. -/
def item1 : Item :=
  { id := "1", status := ItemStatus.lost, isActive := true,
    currentLocation := some locA, lastKnownLocation := none }

/-- A pre-existing history entry for item 1. -/
def upd0 : TrackingUpdate :=
  { id := "u0", itemId := "1", itemType := ItemType.device, location := locA,
    timestampMs := 0, source := "Real-time GPS", confidence := 1 }

/-- A service state with one lost device at locA, one history entry, and
callback token 7 registered for it. -/
def s1 : ServiceState :=
  { devices := fun k => if k = "1" then some item1 else none
    vehicles := fun _ => none
    trackingUpdates := fun k => if k = "1" then [upd0] else []
    locationUpdateCallbacks := fun k => if k = "1" then some 7 else none }

/-- A service state whose history for device 1 already holds 100 entries. -/
def s100 : ServiceState :=
  { devices := fun k => if k = "1" then some item1 else none
    vehicles := fun _ => none
    trackingUpdates := fun k => if k = "1" then List.replicate 100 upd0 else []
    locationUpdateCallbacks := fun _ => none }

/-- History entries for the isItemMoving boundary scenario. -/
def mv1 : TrackingUpdate :=
  { id := "m1", itemId := "1", itemType := ItemType.device, location := locA,
    timestampMs := 0, source := "Real-time GPS", confidence := 1 }

/-- Second entry of the isItemMoving boundary scenario. -/
def mv2 : TrackingUpdate :=
  { id := "m2", itemId := "1", itemType := ItemType.device, location := locB,
    timestampMs := 5000, source := "Real-time GPS", confidence := 1 }

/-- Third entry of the isItemMoving boundary scenario. -/
def mv3 : TrackingUpdate :=
  { id := "m3", itemId := "1", itemType := ItemType.device, location := locA,
    timestampMs := 10000, source := "Real-time GPS", confidence := 1 }

/-- A state whose history for item 1 is three entries with 25 m between each
consecutive pair under dist25: cumulative displacement exactly 50 m. -/
def sMove : ServiceState :=
  { devices := fun k => if k = "1" then some item1 else none
    vehicles := fun _ => none
    trackingUpdates := fun k => if k = "1" then [mv1, mv2, mv3] else []
    locationUpdateCallbacks := fun _ => none }

/-- Two history entries bearing the same timestamp (a zero-duration gap). -/
def sp1 : TrackingUpdate :=
  { id := "w1", itemId := "1", itemType := ItemType.device, location := locA,
    timestampMs := 4000, source := "Real-time GPS", confidence := 1 }

/-- Second same-timestamp entry for the speed scenario. -/
def sp2 : TrackingUpdate :=
  { id := "w2", itemId := "1", itemType := ItemType.device, location := locB,
    timestampMs := 4000, source := "Real-time GPS", confidence := 1 }

/-- A state whose history for item 1 is two updates with zero elapsed time. -/
def sSpeed : ServiceState :=
  { devices := fun k => if k = "1" then some item1 else none
    vehicles := fun _ => none
    trackingUpdates := fun k => if k = "1" then [sp1, sp2] else []
    locationUpdateCallbacks := fun _ => none }

/-- A prisma user table holding one active POLICE officer. -/
def usersPolice : String → Option Officer :=
  fun k => if k = "off1" then some { role := "POLICE", isActive := true } else none

/-- Every carrier configured. -/
def cfgAll : NetworkConfig :=
  { safaricomConfigured := true, airtelConfigured := true, telkomConfigured := true }

/-- A COURT_ORDER request whose courtOrderNumber is present but empty. -/
def reqCourtEmpty : MobileTrackingRequest :=
  { mobileNumber := "+254701000000", requestType := "COURT_ORDER",
    officerId := "off1", courtOrderNumber := some "", emergencyCode := none,
    consentToken := none }

/-- A COURT_ORDER request with no courtOrderNumber at all. -/
def reqCourtMissing : MobileTrackingRequest :=
  { mobileNumber := "+254701000000", requestType := "COURT_ORDER",
    officerId := "off1", courtOrderNumber := none, emergencyCode := none,
    consentToken := none }

/-- A LOST_DEVICE request whose number prefix matches no carrier table. -/
def reqUnknownNet : MobileTrackingRequest :=
  { mobileNumber := "+254999000000", requestType := "LOST_DEVICE",
    officerId := "off1", courtOrderNumber := none, emergencyCode := none,
    consentToken := none }

/-!
Helper lemmas about the history commit.
-/

/-- The trimmed push equals the pushed list with its oldest overflow dropped
from the front: eviction removes oldest entries first. -/
theorem pushTrimmed_eq_drop (old : List TrackingUpdate) (u : TrackingUpdate) :
    pushTrimmed old u = (old ++ [u]).drop (old.length + 1 - 100) := by
  unfold pushTrimmed
  by_cases h : 100 < (old ++ [u]).length
  · rw [if_pos h]
    simp [List.length_append]
  · rw [if_neg h]
    have h0 : old.length + 1 - 100 = 0 := by
      simp [List.length_append] at h
      omega
    rw [h0, List.drop_zero]

/-- The trimmed push never exceeds 100 entries when the old history did not. -/
theorem pushTrimmed_length_le (old : List TrackingUpdate) (u : TrackingUpdate)
    (h : old.length ≤ 100) : (pushTrimmed old u).length ≤ 100 := by
  unfold pushTrimmed
  by_cases h1 : 100 < (old ++ [u]).length
  · rw [if_pos h1]
    simp only [List.length_drop, List.length_append, List.length_singleton] at h1 ⊢
    omega
  · rw [if_neg h1]
    simp only [List.length_append, List.length_singleton] at h1 ⊢
    omega

/-- A real-time step leaves every history untouched or replaces one with a
trimmed push of itself. -/
theorem realtime_trackingUpdates_cases (dist : Coordinates → Coordinates → ℚ)
    (s : ServiceState) (itemId : String) (newLoc : Location) (updId : String)
    (nowMs : ℤ) (conf : ℚ) (k : String) :
    ((updateItemLocationRealTime dist s itemId newLoc updId nowMs conf).1).trackingUpdates k
      = s.trackingUpdates k ∨
    ∃ u, ((updateItemLocationRealTime dist s itemId newLoc updId nowMs conf).1).trackingUpdates k
      = pushTrimmed (s.trackingUpdates k) u := by
  unfold updateItemLocationRealTime
  dsimp only
  split
  · left; rfl
  · rename_i item heq
    split
    · split
      · left; rfl
      · split
        · dsimp only
          split
          · dsimp only
            by_cases hk : k = item.id
            · subst hk
              exact Or.inr ⟨_, if_pos rfl⟩
            · exact Or.inl (if_neg hk)
          · dsimp only
            by_cases hk : k = item.id
            · subst hk
              exact Or.inr ⟨_, if_pos rfl⟩
            · exact Or.inl (if_neg hk)
        · left; rfl
    · left; rfl

/-!
Claim theorems.
-/

/-- C1 counterexample: a manual location update on an entity whose history
already holds the cap of 100 entries results in a history of 101 entries —
updateItemLocation performs no trimming, so the stated invariant fails on the
manual path. -/
theorem manual_update_exceeds_cap :
    (s100.trackingUpdates "1").length = 100 ∧
    (((updateItemLocation s100 "1" locB ItemType.device "u101" 0).1).trackingUpdates "1").length
      = 101 := by
  constructor <;> decide

/-- C1 (amended): on the real-time update path, if every history holds at
most 100 entries then every history still holds at most 100 entries after the
step, and any changed history is the old one with the new update appended and
the oldest overflow entries dropped from the front (FIFO eviction). The
manual updateItemLocation path does not enforce the cap. -/
theorem realtime_history_cap_fifo (dist : Coordinates → Coordinates → ℚ)
    (s : ServiceState) (itemId : String) (newLoc : Location) (updId : String)
    (nowMs : ℤ) (conf : ℚ)
    (hcap : ∀ k, (s.trackingUpdates k).length ≤ 100) :
    (∀ k, (((updateItemLocationRealTime dist s itemId newLoc updId nowMs conf).1).trackingUpdates k).length ≤ 100) ∧
    (∀ k, ((updateItemLocationRealTime dist s itemId newLoc updId nowMs conf).1).trackingUpdates k
        = s.trackingUpdates k ∨
      ∃ u, ((updateItemLocationRealTime dist s itemId newLoc updId nowMs conf).1).trackingUpdates k
        = (s.trackingUpdates k ++ [u]).drop ((s.trackingUpdates k).length + 1 - 100)) := by
  constructor
  · intro k
    rcases realtime_trackingUpdates_cases dist s itemId newLoc updId nowMs conf k with h | ⟨u, h⟩
    · rw [h]; exact hcap k
    · rw [h]; exact pushTrimmed_length_le _ _ (hcap k)
  · intro k
    rcases realtime_trackingUpdates_cases dist s itemId newLoc updId nowMs conf k with h | ⟨u, h⟩
    · exact Or.inl h
    · exact Or.inr ⟨u, by rw [h, pushTrimmed_eq_drop]⟩

/-- C1 witness: the cap theorem applied to the concrete one-entry state. -/
theorem realtime_history_cap_fifo_witness :
    (∀ k, (((updateItemLocationRealTime dist100 s1 "1" locB "u9" 9 1).1).trackingUpdates k).length ≤ 100) ∧
    (∀ k, ((updateItemLocationRealTime dist100 s1 "1" locB "u9" 9 1).1).trackingUpdates k
        = s1.trackingUpdates k ∨
      ∃ u, ((updateItemLocationRealTime dist100 s1 "1" locB "u9" 9 1).1).trackingUpdates k
        = (s1.trackingUpdates k ++ [u]).drop ((s1.trackingUpdates k).length + 1 - 100)) :=
  realtime_history_cap_fifo dist100 s1 "1" locB "u9" 9 1 (fun k => by
    by_cases h : k = "1" <;> simp [s1, h])

/-- C2 counterexample: the manual path commits a sample equal to the current
location (great-circle distance 0, below every positive threshold): the
history grows and a notification is delivered, so not every committing caller
consults the significance filter. -/
theorem manual_update_bypasses_filter :
    (s1.devices "1").bind Item.currentLocation = some locA ∧
    ((updateItemLocation s1 "1" locA ItemType.device "u2" 5).1.trackingUpdates "1").length
      = (s1.trackingUpdates "1").length + 1 ∧
    (updateItemLocation s1 "1" locA ItemType.device "u2" 5).2.1 ≠ [] := by
  refine ⟨by decide, by decide, by decide⟩

/-- C2 (amended): only the real-time path consults the 10 m significance
filter — it mutates state only when the distance from the last location is at
least 10 — while the manual updateItemLocation path (which takes no distance
function at all) appends a TrackingUpdate unconditionally whenever the item
exists. -/
theorem filter_gates_realtime_only (dist : Coordinates → Coordinates → ℚ)
    (s : ServiceState) (itemId : String) (newLoc loc : Location)
    (itemType : ItemType) (updId : String) (nowMs : ℤ) (conf : ℚ) :
    (updateItemLocationRealTime dist s itemId newLoc updId nowMs conf ≠ (s, []) →
      ∃ item lastLocation,
        ((s.devices itemId).orElse fun _ => s.vehicles itemId) = some item ∧
        (item.currentLocation.orElse fun _ => item.lastKnownLocation) = some lastLocation ∧
        10 ≤ dist ⟨lastLocation.latitude, lastLocation.longitude⟩
          ⟨newLoc.latitude, newLoc.longitude⟩) ∧
    (∀ item, manualLookup s itemId itemType = some item →
      ∃ u, u.location = loc ∧
        ((updateItemLocation s itemId loc itemType updId nowMs).1).trackingUpdates itemId
          = s.trackingUpdates itemId ++ [u]) := by
  constructor
  · unfold updateItemLocationRealTime
    dsimp only
    split
    · intro h; exact absurd rfl h
    · rename_i item heq
      split
      · split
        · intro h; exact absurd rfl h
        · rename_i lastLocation heq'
          split
          · intro _
            exact ⟨item, lastLocation, heq, heq', by assumption⟩
          · intro h; exact absurd rfl h
      · intro h; exact absurd rfl h
  · intro item hitem
    unfold updateItemLocation
    rw [hitem]
    cases itemType
    · exact ⟨_, rfl, if_pos rfl⟩
    · exact ⟨_, rfl, if_pos rfl⟩

/-- C2 witness: the gating theorem applied to the concrete state, with both
antecedents discharged: the real-time step under the 100 m distance function
is a real change, and the manual path appends for the present device. -/
theorem filter_gates_realtime_only_witness :
    (∃ item lastLocation,
        ((s1.devices "1").orElse fun _ => s1.vehicles "1") = some item ∧
        (item.currentLocation.orElse fun _ => item.lastKnownLocation) = some lastLocation ∧
        10 ≤ dist100 ⟨lastLocation.latitude, lastLocation.longitude⟩
          ⟨locB.latitude, locB.longitude⟩) ∧
    (∃ u, u.location = locB ∧
      ((updateItemLocation s1 "1" locB ItemType.device "u9" 9).1).trackingUpdates "1"
        = s1.trackingUpdates "1" ++ [u]) :=
  ⟨(filter_gates_realtime_only dist100 s1 "1" locB locB ItemType.device "u9" 9 1).1
      (fun h => absurd (congrArg Prod.snd h) (by decide)),
   (filter_gates_realtime_only dist100 s1 "1" locB locB ItemType.device "u9" 9 1).2
      item1 (by decide)⟩

/-- C3 counterexample: an active POLICE officer submitting a COURT_ORDER
request whose courtOrderNumber is the empty string is validated successfully
and the request proceeds to the carrier — the code only tests that the field
is not undefined, so the empty string passes and no Unauthorized failure is
produced. -/
theorem empty_court_order_accepted :
    validateTrackingRequest usersPolice reqCourtEmpty = true ∧
    (trackMobileNumber usersPolice cfgAll reqCourtEmpty "r1").1.success = true ∧
    (trackMobileNumber usersPolice cfgAll reqCourtEmpty "r1").1.error
      ≠ some "Unauthorized tracking request" := by
  refine ⟨by decide, by decide, by decide⟩

/-- C3 (amended): requestMobileTracking yields the Unauthorized failure, for
every officer table and carrier configuration, exactly when the required
field is absent (undefined): COURT_ORDER with no courtOrderNumber, EMERGENCY
with no emergencyCode, or CONSENT with no consentToken. A present-but-empty
string is not rejected. -/
theorem missing_field_unauthorized (users : String → Option Officer)
    (cfg : NetworkConfig) (req : MobileTrackingRequest) (newId : String)
    (h : (req.requestType = "COURT_ORDER" ∧ req.courtOrderNumber = none) ∨
         (req.requestType = "EMERGENCY" ∧ req.emergencyCode = none) ∨
         (req.requestType = "CONSENT" ∧ req.consentToken = none)) :
    trackMobileNumber users cfg req newId =
      ({ success := false, hasLocation := false, locationNetwork := none,
         error := some "Unauthorized tracking request", requestId := "" },
       none, []) := by
  have hv : validateTrackingRequest users req = false := by
    unfold validateTrackingRequest
    cases husers : users req.officerId with
    | none => rfl
    | some officer =>
      rcases h with ⟨ht, hf⟩ | ⟨ht, hf⟩ | ⟨ht, hf⟩ <;> rw [ht, hf] <;> simp
  unfold trackMobileNumber
  rw [hv]
  simp

/-- C3 witness: the missing-field theorem applied to a COURT_ORDER request
with no courtOrderNumber from an authorized officer. -/
theorem missing_field_unauthorized_witness :
    trackMobileNumber usersPolice cfgAll reqCourtMissing "r1" =
      ({ success := false, hasLocation := false, locationNetwork := none,
         error := some "Unauthorized tracking request", requestId := "" },
       none, []) :=
  missing_field_unauthorized usersPolice cfgAll reqCourtMissing "r1" (Or.inl ⟨rfl, rfl⟩)

/-- C4 counterexample: with exactly two history entries bearing the same
timestamp, getItemSpeed returns some 0, not none — the zero-elapsed case
yields the value 0 rather than the null the claim states. -/
theorem speed_zero_elapsed_returns_zero :
    getItemSpeed distZero sSpeed "1" = some 0 := by
  norm_num [getItemSpeed, sSpeed, distZero, sp1, sp2]

/-- C4 (amended): speed is computed strictly from the last two history
entries; it returns none when fewer than two entries exist, returns 0 (not
none) when the elapsed time is not positive, and otherwise returns the
distance between the two entries divided by the elapsed seconds. All cases
are ordinary return values, never failures. -/
theorem speed_from_last_two (dist : Coordinates → Coordinates → ℚ)
    (s : ServiceState) (itemId : String) :
    ((s.trackingUpdates itemId).length < 2 → getItemSpeed dist s itemId = none) ∧
    (∀ a b, 2 ≤ (s.trackingUpdates itemId).length →
      (s.trackingUpdates itemId).drop ((s.trackingUpdates itemId).length - 2) = [a, b] →
      ((b.timestampMs ≤ a.timestampMs → getItemSpeed dist s itemId = some 0) ∧
       (a.timestampMs < b.timestampMs →
         getItemSpeed dist s itemId = some
           (dist ⟨a.location.latitude, a.location.longitude⟩
              ⟨b.location.latitude, b.location.longitude⟩ /
            (((b.timestampMs : ℚ) - (a.timestampMs : ℚ)) / 1000))))) := by
  constructor
  · intro h
    unfold getItemSpeed
    rw [if_pos h]
  · intro a b h2 hdrop
    unfold getItemSpeed
    dsimp only
    rw [if_neg (not_lt.mpr h2), hdrop]
    dsimp only
    constructor
    · intro hle
      have hnp : ¬ (0 < ((b.timestampMs : ℚ) - (a.timestampMs : ℚ)) / 1000) := by
        rw [not_lt]
        apply div_nonpos_of_nonpos_of_nonneg
        · rw [sub_nonpos]
          exact_mod_cast hle
        · norm_num
      rw [if_neg hnp]
    · intro hlt
      have hpos : 0 < ((b.timestampMs : ℚ) - (a.timestampMs : ℚ)) / 1000 := by
        apply div_pos
        · rw [sub_pos]
          exact_mod_cast hlt
        · norm_num
      rw [if_pos hpos]

/-- C4 witness: the speed theorem applied to the concrete zero-elapsed state. -/
theorem speed_from_last_two_witness :
    getItemSpeed distZero sSpeed "1" = some 0 :=
  ((speed_from_last_two distZero sSpeed "1").2 sp1 sp2 (by decide) (by decide)).1 (by decide)

/-- C5 counterexample: a valid LOST_DEVICE request from an authorized officer
for a number whose prefix matches no carrier table: the request record is
created (id r1) but the list of outcome writes applied to it is empty — the
outcome is never set, not set exactly once — and the caller receives a
failure whose requestId is the empty string. -/
theorem unknown_network_outcome_never_set :
    (trackMobileNumber usersPolice cfgAll reqUnknownNet "r1").2.1 = some "r1" ∧
    (trackMobileNumber usersPolice cfgAll reqUnknownNet "r1").2.2 = [] ∧
    (trackMobileNumber usersPolice cfgAll reqUnknownNet "r1").1.error
      = some "Unknown network provider" ∧
    (trackMobileNumber usersPolice cfgAll reqUnknownNet "r1").1.requestId = "" := by
  refine ⟨by decide, by decide, by decide, by decide⟩

/-- C5 (amended): when validation fails no record is created and no outcome
is written; when validation passes a record is created, and its outcome is
written exactly once precisely when the phone number resolves to one of the
three known carriers — on the unknown-provider path the created record
receives no outcome write at all. -/
theorem outcome_writes_by_network (users : String → Option Officer)
    (cfg : NetworkConfig) (req : MobileTrackingRequest) (newId : String) :
    (validateTrackingRequest users req = false →
      (trackMobileNumber users cfg req newId).2.1 = none ∧
      (trackMobileNumber users cfg req newId).2.2 = []) ∧
    (validateTrackingRequest users req = true →
      (trackMobileNumber users cfg req newId).2.1 = some newId ∧
      ((identifyNetwork req.mobileNumber = "SAFARICOM" ∨
        identifyNetwork req.mobileNumber = "AIRTEL" ∨
        identifyNetwork req.mobileNumber = "TELKOM") →
        (trackMobileNumber users cfg req newId).2.2.length = 1) ∧
      (¬ (identifyNetwork req.mobileNumber = "SAFARICOM" ∨
          identifyNetwork req.mobileNumber = "AIRTEL" ∨
          identifyNetwork req.mobileNumber = "TELKOM") →
        (trackMobileNumber users cfg req newId).2.2 = [])) := by
  constructor
  · intro hv
    unfold trackMobileNumber
    rw [hv]
    simp
  · intro hv
    unfold trackMobileNumber
    rw [hv]
    by_cases h1 : identifyNetwork req.mobileNumber = "SAFARICOM"
    · simp [h1]
    · by_cases h2 : identifyNetwork req.mobileNumber = "AIRTEL"
      · simp [h1, h2]
      · by_cases h3 : identifyNetwork req.mobileNumber = "TELKOM"
        · simp [h1, h2, h3]
        · simp [h1, h2, h3]

/-- C5 witness: the outcome-writes theorem applied to the concrete
unknown-prefix request, with the validation and unknown-carrier antecedents
discharged. -/
theorem outcome_writes_by_network_witness :
    (trackMobileNumber usersPolice cfgAll reqUnknownNet "r1").2.1 = some "r1" ∧
    (trackMobileNumber usersPolice cfgAll reqUnknownNet "r1").2.2 = [] :=
  ⟨((outcome_writes_by_network usersPolice cfgAll reqUnknownNet "r1").2 (by decide)).1,
   ((outcome_writes_by_network usersPolice cfgAll reqUnknownNet "r1").2 (by decide)).2.2
     (by decide)⟩

/-- C6 counterexample: three history entries whose consecutive distances are
25 m each give a cumulative displacement of exactly 50 m, yet isItemMoving
reports false — the code uses a strict comparison (total > 50), so the
claimed "moving iff total at least 50" fails at the boundary. -/
theorem moving_false_at_exactly_50m :
    2 ≤ (sMove.trackingUpdates "1").length ∧
    pairwiseSum dist25 ((sMove.trackingUpdates "1").drop
      ((sMove.trackingUpdates "1").length - 5)) = 50 ∧
    isItemMoving dist25 sMove "1" = false := by
  refine ⟨by decide, ?_, ?_⟩
  · norm_num [sMove, pairwiseSum, dist25]
  · norm_num [isItemMoving, sMove, pairwiseSum, dist25]

/-- C6 (amended): isItemMoving returns true exactly when at least two history
entries exist and the sum of consecutive pairwise distances over the last
five entries strictly exceeds 50 m; in particular it is false with fewer than
two entries and false when the total is exactly 50 m. -/
theorem isMoving_iff (dist : Coordinates → Coordinates → ℚ) (s : ServiceState)
    (itemId : String) :
    isItemMoving dist s itemId = true ↔
      2 ≤ (s.trackingUpdates itemId).length ∧
      50 < pairwiseSum dist
        ((s.trackingUpdates itemId).drop ((s.trackingUpdates itemId).length - 5)) := by
  unfold isItemMoving
  dsimp only
  by_cases h2 : (s.trackingUpdates itemId).length < 2
  · rw [if_pos h2]
    constructor
    · intro h; exact absurd h (by simp)
    · rintro ⟨h, -⟩; omega
  · rw [if_neg h2]
    by_cases h50 : 50 < pairwiseSum dist
        ((s.trackingUpdates itemId).drop ((s.trackingUpdates itemId).length - 5))
    · rw [if_pos h50]
      exact ⟨fun _ => ⟨by omega, h50⟩, fun _ => rfl⟩
    · rw [if_neg h50]
      constructor
      · intro h; exact absurd h (by simp)
      · rintro ⟨-, h⟩; exact absurd h h50

/-- C7: when the entity resolves to an item whose current location is prev
and the distance from prev to the candidate sample is below the 10 m
threshold, the real-time accept operation returns the state unchanged and
delivers no notification — the rejected sample has no side effect. -/
theorem reject_leaves_state_unchanged (dist : Coordinates → Coordinates → ℚ)
    (s : ServiceState) (itemId : String) (newLoc : Location) (updId : String)
    (nowMs : ℤ) (conf : ℚ) (item : Item) (prev : Location)
    (hitem : ((s.devices itemId).orElse fun _ => s.vehicles itemId) = some item)
    (hcur : item.currentLocation = some prev)
    (hdist : dist ⟨prev.latitude, prev.longitude⟩ ⟨newLoc.latitude, newLoc.longitude⟩ < 10) :
    updateItemLocationRealTime dist s itemId newLoc updId nowMs conf = (s, []) := by
  unfold updateItemLocationRealTime
  dsimp only
  rw [hitem]
  dsimp only
  split
  · rw [hcur]
    dsimp only [Option.orElse]
    rw [if_neg (not_le.mpr hdist)]
  · rfl

/-- C7 witness: the rejection theorem applied to the concrete one-device
state under the everywhere-zero distance function. -/
theorem reject_leaves_state_unchanged_witness :
    updateItemLocationRealTime distZero s1 "1" locB "u9" 9 1 = (s1, []) :=
  reject_leaves_state_unchanged distZero s1 "1" locB "u9" 9 1 item1 locA
    (by decide) (by decide) (by decide)

/-- C8: with callback cb registered for the entity (an item whose id is the
registry key), a real-time step either rejects the sample with no state
change and no delivery, or delivers the accepted update to cb exactly once;
and after unsubscribing, a real-time step delivers no notification at all. -/
theorem exactly_once_delivery (dist : Coordinates → Coordinates → ℚ)
    (s : ServiceState) (itemId : String) (newLoc : Location) (updId : String)
    (nowMs : ℤ) (conf : ℚ) (cb : ℕ) (item : Item)
    (hitem : ((s.devices itemId).orElse fun _ => s.vehicles itemId) = some item)
    (hid : item.id = itemId)
    (hcb : s.locationUpdateCallbacks itemId = some cb) :
    (updateItemLocationRealTime dist s itemId newLoc updId nowMs conf = (s, []) ∨
      ∃ u, (updateItemLocationRealTime dist s itemId newLoc updId nowMs conf).2 = [(cb, u)]) ∧
    (updateItemLocationRealTime dist (unsubscribeFromLocationUpdates s itemId)
      itemId newLoc updId nowMs conf).2 = [] := by
  constructor
  · unfold updateItemLocationRealTime
    dsimp only
    rw [hitem]
    dsimp only
    split
    · split
      · left; rfl
      · split
        · dsimp only
          right
          rw [hid, hcb]
          exact ⟨_, rfl⟩
        · left; rfl
    · left; rfl
  · unfold updateItemLocationRealTime unsubscribeFromLocationUpdates
    dsimp only
    rw [hitem]
    dsimp only
    split
    · split
      · rfl
      · split
        · dsimp only
        · rfl
    · rfl

/-- C8 witness: the delivery theorem applied to the concrete subscribed state
under the everywhere-100 m distance function. -/
theorem exactly_once_delivery_witness :
    (updateItemLocationRealTime dist100 s1 "1" locB "u9" 9 1 = (s1, []) ∨
      ∃ u, (updateItemLocationRealTime dist100 s1 "1" locB "u9" 9 1).2 = [(7, u)]) ∧
    (updateItemLocationRealTime dist100 (unsubscribeFromLocationUpdates s1 "1")
      "1" locB "u9" 9 1).2 = [] :=
  exactly_once_delivery dist100 s1 "1" locB "u9" 9 1 7 item1
    (by decide) (by decide) (by decide)

/-- C9: formatDistance maps 500 to 500m, 1500 to 1.5km and 25000 to 25km,
and in general renders rounded integer meters below 1000, one-decimal
kilometres below 10000, and rounded integer kilometres otherwise. As a Lean
function it is deterministic and side-effect free by construction. -/
theorem formatDistance_bands :
    formatDistance 500 = "500m" ∧
    formatDistance 1500 = "1.5km" ∧
    formatDistance 25000 = "25km" ∧
    (∀ m : ℚ, m < 1000 → formatDistance m = toString (jsRound m) ++ "m") ∧
    (∀ m : ℚ, 1000 ≤ m → m < 10000 → formatDistance m = toFixed1 (m / 1000) ++ "km") ∧
    (∀ m : ℚ, 10000 ≤ m → formatDistance m = toString (jsRound (m / 1000)) ++ "km") := by
  refine ⟨?_, ?_, ?_, ?_, ?_, ?_⟩
  · unfold formatDistance
    rw [if_pos (by norm_num)]
    have h : jsRound 500 = 500 := by
      unfold jsRound
      norm_num [Int.floor_eq_iff]
    rw [h]
    decide
  · unfold formatDistance
    rw [if_neg (by norm_num), if_pos (by norm_num)]
    unfold toFixed1
    dsimp only
    have h2 : (⌊(1500 : ℚ) / 1000 * 10 + 1 / 2⌋ : ℤ) = 15 := by
      norm_num [Int.floor_eq_iff]
    rw [h2]
    decide
  · unfold formatDistance
    rw [if_neg (by norm_num), if_neg (by norm_num)]
    have h : jsRound ((25000 : ℚ) / 1000) = 25 := by
      unfold jsRound
      norm_num [Int.floor_eq_iff]
    rw [h]
    decide
  · intro m hm
    unfold formatDistance
    rw [if_pos hm]
  · intro m hm1 hm2
    unfold formatDistance
    rw [if_neg (not_lt.mpr hm1), if_pos hm2]
  · intro m hm
    unfold formatDistance
    rw [if_neg (not_lt.mpr (le_trans (by norm_num) hm)), if_neg (not_lt.mpr hm)]

/-- C9 witness: the band equalities applied at in-band concrete inputs. -/
theorem formatDistance_bands_witness :
    formatDistance 999 = toString (jsRound (999 : ℚ)) ++ "m" ∧
    formatDistance 2500 = toFixed1 ((2500 : ℚ) / 1000) ++ "km" ∧
    formatDistance 10000 = toString (jsRound ((10000 : ℚ) / 1000)) ++ "km" :=
  ⟨formatDistance_bands.2.2.2.1 999 (by norm_num),
   formatDistance_bands.2.2.2.2.1 2500 (by norm_num) (by norm_num),
   formatDistance_bands.2.2.2.2.2 10000 (by norm_num)⟩

/-- C10: subscribeToLocationUpdates keys the registry by entity id alone, so
a new subscription replaces whatever callback any caller had registered for
that entity while leaving other entities untouched, and a real-time step
invokes at most one callback. -/
theorem subscribe_replaces_single_callback (s : ServiceState) (itemId e2 : String)
    (cb : ℕ) (hne : e2 ≠ itemId) :
    (subscribeToLocationUpdates s itemId cb).locationUpdateCallbacks itemId = some cb ∧
    (subscribeToLocationUpdates s itemId cb).locationUpdateCallbacks e2
      = s.locationUpdateCallbacks e2 ∧
    (∀ (dist : Coordinates → Coordinates → ℚ) (s2 : ServiceState) (k : String)
      (newLoc : Location) (updId : String) (nowMs : ℤ) (conf : ℚ),
      ((updateItemLocationRealTime dist s2 k newLoc updId nowMs conf).2).length ≤ 1) := by
  refine ⟨by simp [subscribeToLocationUpdates], by simp [subscribeToLocationUpdates, hne], ?_⟩
  intro dist s2 k newLoc updId nowMs conf
  unfold updateItemLocationRealTime
  dsimp only
  split
  · simp
  · split
    · split
      · simp
      · split
        · dsimp only
          split <;> simp
        · simp
    · simp

/-- C10 witness: the replacement theorem applied to the concrete subscribed
state, registering token 9 over the existing token 7. -/
theorem subscribe_replaces_single_callback_witness :
    (subscribeToLocationUpdates s1 "1" 9).locationUpdateCallbacks "1" = some 9 ∧
    (subscribeToLocationUpdates s1 "1" 9).locationUpdateCallbacks "2"
      = s1.locationUpdateCallbacks "2" ∧
    (∀ (dist : Coordinates → Coordinates → ℚ) (s2 : ServiceState) (k : String)
      (newLoc : Location) (updId : String) (nowMs : ℤ) (conf : ℚ),
      ((updateItemLocationRealTime dist s2 k newLoc updId nowMs conf).2).length ≤ 1) :=
  subscribe_replaces_single_callback s1 "1" "2" 9 (by decide)
